import Mathlib

/-!
Shallow embedding of the recruitment-exercise backend
(rag_module, metrics_lambda, aws_service, pdf_service) and proofs of the
frozen claims about it.

External collaborators (PDF service transport, sentence-transformers
embedder, Pinecone index, Hugging Face chat completion, DynamoDB, S3) are
modelled as explicit environment functions returning `Except String`,
where an `Except.error msg` stands for a raised Python exception carrying
message `msg`.  All numeric scores are modelled over `ℚ`.
-/

set_option autoImplicit false
set_option maxRecDepth 16000

namespace Backend

/-! ### Python string primitives used by the pydantic validators -/

/-- Characters removed by Python `str.strip()` (the ASCII whitespace set). -/
def isPyWhitespace (c : Char) : Bool :=
  c = ' ' || c = '\t' || c = '\n' || c = '\r' || c = '\x0b' || c = '\x0c'

/-- `str.strip()` on a character list: drop whitespace from both ends. -/
def pyStripList (l : List Char) : List Char :=
  (((l.dropWhile isPyWhitespace).reverse.dropWhile isPyWhitespace)).reverse

/-- Python `s.strip()`. -/
def pyStrip (s : String) : String := String.mk (pyStripList s.data)

/-- Python `len(s)` (code points). -/
def pyLen (s : String) : Nat := s.data.length

/-! ### rag_module/app/schemas.py

Pydantic v2 runs the `Field(min_length/max_length)` constraints on the raw
field value first, and only then the `@field_validator` (default mode
`after`).  `IndexRequest.document_ids` and `QueryRequest.document_ids`
carry `Field` bounds plus a validator checking emptiness, a count bound,
duplicates and per-id non-blankness; `QueryRequest.question` carries
`Field(min_length=1, max_length=1000)` and a validator that strips the
question and rejects blank ones, returning the stripped string. -/

/-- `IndexRequest.document_ids`: `Field(..., min_length=1, max_length=100)`
followed by `validate_document_ids` (empty, >100, duplicates via
`len(v) != len(set(v))`, blank ids). -/
def validateDocumentIdsIndex (v : List String) : Except String (List String) :=
  if v.length < 1 then .error "List should have at least 1 item"
  else if v.length > 100 then .error "List should have at most 100 items"
  else if v.isEmpty then .error "document_ids cannot be empty"
  else if v.length > 100 then .error "Cannot index more than 100 documents at once"
  else if v.length ≠ v.dedup.length then .error "document_ids must be unique"
  else
    match v.find? (fun d => pyStrip d = "") with
    | some d => .error ("Invalid document ID: " ++ d)
    | none => .ok v

/-- `QueryRequest.document_ids`: `Field(..., min_length=1, max_length=50)`
followed by the analogous `validate_document_ids` with the 50 bound. -/
def validateDocumentIdsQuery (v : List String) : Except String (List String) :=
  if v.length < 1 then .error "List should have at least 1 item"
  else if v.length > 50 then .error "List should have at most 50 items"
  else if v.isEmpty then .error "document_ids cannot be empty"
  else if v.length > 50 then .error "Cannot query more than 50 documents at once"
  else if v.length ≠ v.dedup.length then .error "document_ids must be unique"
  else
    match v.find? (fun d => pyStrip d = "") with
    | some d => .error ("Invalid document ID: " ++ d)
    | none => .ok v

/-- `QueryRequest.question`: `Field(..., min_length=1, max_length=1000)` on
the RAW string, then `validate_question` which strips and rejects blank
questions, returning the stripped value. -/
def validateQuestion (q : String) : Except String String :=
  if pyLen q < 1 then .error "String should have at least 1 character"
  else if pyLen q > 1000 then .error "String should have at most 1000 characters"
  else if pyStrip q = "" then .error "Question cannot be empty"
  else .ok (pyStrip q)

structure IndexRequest where
  document_ids : List String
deriving Repr, DecidableEq

structure QueryRequest where
  document_ids : List String
  question : String
deriving Repr, DecidableEq

/-- Validation of a `POST /rag/index` body, as pydantic performs it. -/
def validateIndexRequest (document_ids : List String) : Except String IndexRequest :=
  match validateDocumentIdsIndex document_ids with
  | .error e => .error e
  | .ok ids => .ok { document_ids := ids }

/-- Validation of a `POST /rag/query` body, as pydantic performs it. -/
def validateQueryRequest (document_ids : List String) (question : String) :
    Except String QueryRequest :=
  match validateDocumentIdsQuery document_ids with
  | .error e => .error e
  | .ok ids =>
    match validateQuestion question with
    | .error e => .error e
    | .ok qv => .ok { document_ids := ids, question := qv }

/-! ### rag_module/app/main.py — `index_documents` -/

/-- One record passed to `index.upsert`:
`(f"{doc_id}_{i}", emb, {"doc_id": doc_id, "text": chunk})`. -/
structure VectorRecord where
  id : String
  embedding : List ℚ
  doc_id : String
  text : String
deriving Repr, DecidableEq

/-- Environment of external calls made while indexing one document. -/
structure IndexEnv where
  /-- `utils.get_document_text` (HTTP GET to the PDF service;
  `raise_for_status` on 404 or transport failure is an `error`). -/
  getDocumentText : String → Except String String
  /-- `utils.text_splitter.split_text`. -/
  splitText : String → List String
  /-- `utils.embed_texts`. -/
  embedTexts : List String → Except String (List (List ℚ))
  /-- `utils.index.upsert`. -/
  upsert : List VectorRecord → Except String Unit

inductive DocStatus
  | success
  | failure
deriving Repr, DecidableEq

/-- One entry of the `results` list returned by `index_documents`. -/
structure DocResult where
  doc_id : String
  status : DocStatus
  reason : Option String
deriving Repr, DecidableEq

/-- `[(f"{doc_id}_{i}", emb, {"doc_id": doc_id, "text": chunk})
for i, (emb, chunk) in enumerate(zip(embeddings, chunks))]`. -/
def toUpsert (doc_id : String) (embeddings : List (List ℚ)) (chunks : List String) :
    List VectorRecord :=
  ((embeddings.zip chunks).enum).map fun p =>
    { id := doc_id ++ "_" ++ toString p.1
      embedding := p.2.1
      doc_id := doc_id
      text := p.2.2 }

/-- The per-document `try` body of the loop in `index_documents`, together
with the list of `upsert` batches attempted for this document.  Any
`except Exception as e` is the `.error` branch, recorded as a failure
entry carrying `str(e)`. -/
def processDocument (env : IndexEnv) (doc_id : String) :
    DocResult × List (List VectorRecord) :=
  match env.getDocumentText doc_id with
  | .error e => (⟨doc_id, .failure, some e⟩, [])
  | .ok text =>
    let chunks := env.splitText text
    match env.embedTexts chunks with
    | .error e => (⟨doc_id, .failure, some e⟩, [])
    | .ok embeddings =>
      let batch := toUpsert doc_id embeddings chunks
      match env.upsert batch with
      | .error e => (⟨doc_id, .failure, some e⟩, [batch])
      | .ok _ => (⟨doc_id, .success, none⟩, [batch])

/-- The `for doc_id in request.document_ids` loop of `index_documents`:
results accumulate in input order; the second component collects every
`upsert` call made over the whole batch. -/
def indexDocuments (env : IndexEnv) (ids : List String) :
    List DocResult × List (List VectorRecord) :=
  match ids with
  | [] => ([], [])
  | d :: rest =>
    let pr := processDocument env d
    let tail := indexDocuments env rest
    (pr.1 :: tail.1, pr.2 ++ tail.2)

/-- Error responses produced by the FastAPI layer of the RAG module:
pydantic validation failures (422) and `RAGException`s rendered by the
registered exception handler (status code + error code + message). -/
inductive ApiError
  | validation (detail : String)
  | rag (status_code : Nat) (error_code : String) (message : String)
deriving Repr, DecidableEq

def ApiError.statusCode : ApiError → Nat
  | .validation _ => 422
  | .rag s _ _ => s

/-- `POST /rag/index`: pydantic validation then `index_documents`.  On
validation failure FastAPI rejects before the handler body runs, so no
external call (in particular no upsert) happens. -/
def indexEndpoint (env : IndexEnv) (body_ids : List String) :
    Except ApiError (List DocResult) × List (List VectorRecord) :=
  match validateIndexRequest body_ids with
  | .error e => (.error (.validation e), [])
  | .ok req =>
    let r := indexDocuments env req.document_ids
    (.ok r.1, r.2)

/-! ### rag_module/app/main.py — `query_rag` (with utils.call_llm and
utils.send_metrics) -/

/-- One Pinecone match as used by `query_rag`: its similarity `score` and
its `metadata['text']` payload. -/
structure QMatch where
  score : ℚ
  text : String
deriving Repr, DecidableEq

/-- Return shape of `utils.call_llm`. -/
structure LLMResponse where
  answer : String
  tokens_consumed : Nat
  tokens_generated : Nat
deriving Repr, DecidableEq

/-- The metrics payload dict built by `query_rag` and handed to
`utils.send_metrics`. -/
structure MetricsPayload where
  run_id : String
  agent_name : String
  tokens_consumed : Nat
  tokens_generated : Nat
  response_time_ms : ℚ
  confidence_score : ℚ
  status : String
deriving Repr, DecidableEq

/-- Environment of external calls made by `query_rag`.  `runId` models the
fresh `uuid.uuid4()` of the invocation and `elapsedMs` the
`(time.time() - start_time) * 1000` wall-clock measurement taken at the
single point the executed path reaches. -/
structure QueryEnv where
  /-- `utils.embed_texts`. -/
  embedTexts : List String → Except String (List (List ℚ))
  /-- `utils.index.query(vector, top_k, filter doc_id in ids)`,
  returning the `matches` list. -/
  indexQuery : List ℚ → Nat → List String → Except String (List QMatch)
  /-- `hf_client.chat_completion(...)`, returning
  `choices[0].message.content`. -/
  hfChatCompletion : String → Except String String
  /-- The metrics sink reached inside `utils.send_metrics` (Lambda invoke
  or HTTP POST), which may fail. -/
  sendMetricsSink : MetricsPayload → Except String Unit
  runId : String
  elapsedMs : ℚ

/-- `utils.TOP_K` default. -/
def TOP_K : Nat := 5

/-- `utils.call_llm`: on chat-completion success the token counts are the
hard-coded zeros ("The Inference API does not return token counts in the
free tier, so we'll use 0"); any exception propagates. -/
def call_llm (env : QueryEnv) (prompt : String) : Except String LLMResponse :=
  match env.hfChatCompletion prompt with
  | .error e => .error e
  | .ok content => .ok { answer := content, tokens_consumed := 0, tokens_generated := 0 }

/-- `"\n".join(match['metadata']['text'] for match in matches)`. -/
def joinContext (ms : List QMatch) : String :=
  String.intercalate "\n" (ms.map QMatch.text)

/-- The prompt template of `query_rag`. -/
def buildPrompt (context_text question : String) : String :=
  "Based on the following context, please answer the question.\n\nContext:\n"
    ++ context_text ++ "\n\nQuestion:\n" ++ question ++ "\n\nAnswer:"

/-- `sum(match['score'] ...) / len(matches) if matches else 0.0`. -/
def confidenceScore (ms : List QMatch) : ℚ :=
  if ms.isEmpty then 0
  else (ms.map QMatch.score).sum / (ms.length : ℚ)

/-- The field values of `schemas.QueryResponse`.  The pydantic `Field`
bounds declared on it (`tokens_consumed ge=0`, `tokens_generated ge=0`,
`response_time_ms ge=0`, `confidence_score ge=0.0 le=1.0`) are checked at
construction time by `mkQueryResponse` below, as pydantic checks them when
`schemas.QueryResponse(...)` is constructed. -/
structure QueryResponse where
  run_id : String
  answer : String
  tokens_consumed : Nat
  tokens_generated : Nat
  response_time_ms : ℚ
  confidence_score : ℚ
deriving Repr, DecidableEq

/-- The pydantic `Field` bounds of `schemas.QueryResponse`.  The token
counts are `Nat` in the model, so their `ge=0` bounds hold by type. -/
def queryResponseInRange (r : QueryResponse) : Prop :=
  0 ≤ r.response_time_ms ∧ 0 ≤ r.confidence_score ∧ r.confidence_score ≤ 1

instance (r : QueryResponse) : Decidable (queryResponseInRange r) := by
  unfold queryResponseInRange
  infer_instance

/-- Constructing `schemas.QueryResponse(...)`: pydantic validates the
`Field` bounds and raises a `ValidationError` when one fails. -/
def mkQueryResponse (r : QueryResponse) : Except String QueryResponse :=
  if queryResponseInRange r then .ok r
  else .error "1 validation error for QueryResponse"

/-- Steps 2–6 of `query_rag` (question embedding, vector query, context
assembly, LLM call) plus the computation of the candidate response field
values and of the `status = completed` metrics payload.  The pydantic
validation of `schemas.QueryResponse(...)` — which in the source happens
at the `return` inside the `try`, after the completed metrics were sent —
is applied by `queryRag` via `mkQueryResponse`.  The `[0]` subscript of
`utils.embed_texts([...])[0]` on an empty embedding list is the Python
`IndexError`, hence an `.error`. -/
def querySteps (env : QueryEnv) (req : QueryRequest) :
    Except String (QueryResponse × MetricsPayload) :=
  match env.embedTexts [req.question] with
  | .error e => .error e
  | .ok [] => .error "list index out of range"
  | .ok (question_embedding :: _) =>
    match env.indexQuery question_embedding TOP_K req.document_ids with
    | .error e => .error e
    | .ok ms =>
      match call_llm env (buildPrompt (joinContext ms) req.question) with
      | .error e => .error e
      | .ok llm =>
        let conf := confidenceScore ms
        .ok
          ({ run_id := env.runId
             answer := llm.answer
             tokens_consumed := llm.tokens_consumed
             tokens_generated := llm.tokens_generated
             response_time_ms := env.elapsedMs
             confidence_score := conf },
           { run_id := env.runId
             agent_name := "RAGQueryAgent"
             tokens_consumed := llm.tokens_consumed
             tokens_generated := llm.tokens_generated
             response_time_ms := env.elapsedMs
             confidence_score := conf
             status := "completed" })

/-- The payload built in the `except` branch of `query_rag`. -/
def failurePayload (env : QueryEnv) : MetricsPayload :=
  { run_id := env.runId
    agent_name := "RAGQueryAgent"
    tokens_consumed := 0
    tokens_generated := 0
    response_time_ms := env.elapsedMs
    confidence_score := 0
    status := "failed" }

/-- Result of one `query_rag` invocation: the response (or raised
`RAGException`) and the trace of `utils.send_metrics` calls, each with the
payload handed over and the sink outcome that `send_metrics` swallowed. -/
structure QueryOutcome where
  response : Except ApiError QueryResponse
  emissions : List (MetricsPayload × Except String Unit)
deriving Repr

/-- `query_rag` after validation.  When steps 2–6 succeed, the completed
metrics are sent first (`utils.send_metrics` at main.py:135, whose own
`try/except` swallows sink failures), and only then is
`schemas.QueryResponse(...)` constructed at the `return` (main.py:138) —
still inside the `try`.  If its pydantic validation fails (e.g. a mean
cosine score outside `[0,1]`), the `except` branch runs AFTER the
completed record was already sent: it sends a second, failed record and
raises the generic `exceptions.LLMError("Failed to process RAG query")`.
If any of steps 2–6 raises instead, only the failed record is sent.  The
handler renders the `LLMError` with status 500 and code `LLM_ERROR`. -/
def queryRag (env : QueryEnv) (req : QueryRequest) : QueryOutcome :=
  match querySteps env req with
  | .ok (resp, payload) =>
    let sent := env.sendMetricsSink payload
    match mkQueryResponse resp with
    | .ok r =>
      { response := .ok r
        emissions := [(payload, sent)] }
    | .error _ =>
      let fp := failurePayload env
      { response := .error (.rag 500 "LLM_ERROR" "Failed to process RAG query")
        emissions := [(payload, sent), (fp, env.sendMetricsSink fp)] }
  | .error _ =>
    let fp := failurePayload env
    { response := .error (.rag 500 "LLM_ERROR" "Failed to process RAG query")
      emissions := [(fp, env.sendMetricsSink fp)] }

/-- `POST /rag/query`: pydantic validation then `query_rag`; validation
failure rejects before the handler body, so no metrics call happens. -/
def queryEndpoint (env : QueryEnv) (body_ids : List String) (body_question : String) :
    Except ApiError QueryResponse × List (MetricsPayload × Except String Unit) :=
  match validateQueryRequest body_ids body_question with
  | .error e => (.error (.validation e), [])
  | .ok req =>
    let o := queryRag env req
    (o.response, o.emissions)

/-! ### metrics_lambda/handler.py — `store_agent_metrics` -/

/-- The incoming metrics payload dict; every field access goes through
`payload.get(...)`, so each field is optional. -/
structure MetricsEvent where
  run_id : Option String
  agent_name : Option String
  tokens_consumed : Option Int
  tokens_generated : Option Int
  response_time_ms : Option ℚ
  confidence_score : Option ℚ
  status : Option String
deriving Repr, DecidableEq

/-- The item written to the `AgentMetrics` DynamoDB table. -/
structure MetricsItem where
  run_id : String
  timestamp : String
  agent_name : Option String
  tokens_consumed : Int
  tokens_generated : Int
  response_time_ms : ℚ
  confidence_score : ℚ
  status : String
deriving Repr, DecidableEq

/-- The `AgentMetrics` table, keyed by the composite
`(run_id HASH, timestamp RANGE)` key declared for it. -/
abbrev MetricsTable := List ((String × String) × MetricsItem)

/-- DynamoDB `put_item`: insert-or-replace at the item's key. -/
def putMetricsItem (t : MetricsTable) (k : String × String) (v : MetricsItem) :
    MetricsTable :=
  (k, v) :: (List.filter (fun p => p.1 ≠ k) t)

/-- Key lookup in the `AgentMetrics` table. -/
def lookupMetrics (t : MetricsTable) (k : String × String) : Option MetricsItem :=
  (List.find? (fun p => p.1 = k) t).map Prod.snd

/-- Lambda response body. -/
inductive LambdaBody
  | ok (run_id : String)
  | err (msg : String)
deriving Repr, DecidableEq

structure LambdaResult where
  statusCode : Nat
  body : LambdaBody
deriving Repr, DecidableEq

/-- `store_agent_metrics` on an already-parsed dict event: `if not run_id`
rejects both a missing `run_id` and a present falsy one (empty string)
with 400 and writes nothing; otherwise it builds the item with zero /
"unknown" defaults, stamps `timestamp` at write time (`now`), writes it
under `(run_id, timestamp)` and returns 200 `{status: ok, run_id}`. -/
def store_agent_metrics (event : MetricsEvent) (now : String) (table : MetricsTable) :
    LambdaResult × MetricsTable :=
  match event.run_id with
  | none => (⟨400, .err "Missing run_id"⟩, table)
  | some r =>
    if r = "" then (⟨400, .err "Missing run_id"⟩, table)
    else
      let item : MetricsItem :=
        { run_id := r
          timestamp := now
          agent_name := event.agent_name
          tokens_consumed := event.tokens_consumed.getD 0
          tokens_generated := event.tokens_generated.getD 0
          response_time_ms := event.response_time_ms.getD 0
          confidence_score := event.confidence_score.getD 0
          status := event.status.getD "unknown" }
      (⟨200, .ok r⟩, putMetricsItem table (r, now) item)

/-! ### aws_service/app/main.py — `delete_document` -/

/-- A `DocumentsMetadata` item as written by `create_document`. -/
structure DocItem where
  doc_id : String
  filename : String
  upload_timestamp : String
  s3_key : String
  tags : List (String × String)
deriving Repr, DecidableEq

/-- The `DocumentsMetadata` table keyed by `doc_id`. -/
abbrev DocTable := List (String × DocItem)

/-- DynamoDB `get_item` on the documents table. -/
def getDocItem (t : DocTable) (doc_id : String) : Option DocItem :=
  (List.find? (fun p => p.1 = doc_id) t).map Prod.snd

/-- DynamoDB `delete_item` on the documents table. -/
def deleteDocItem (t : DocTable) (doc_id : String) : DocTable :=
  List.filter (fun p => p.1 ≠ doc_id) t

/-- Response of `DELETE /aws/documents/{doc_id}`: 200 with
`{status: deleted}` or a raised 404. -/
structure DeleteResponse where
  status_code : Nat
  status : Option String
deriving Repr, DecidableEq

/-- `delete_document`: 404 when the item is absent (nothing deleted);
otherwise, when `delete_s3` is set and the item has a non-empty `s3_key`,
the S3 delete is attempted inside `try/except` (its outcome only logged),
then the metadata record is deleted and 200 `{status: deleted}` returned.
The third component records the attempted S3 deletes with their
outcomes. -/
def delete_document (table : DocTable) (doc_id : String) (delete_s3 : Bool)
    (s3Delete : String → Except String Unit) :
    DeleteResponse × DocTable × List (String × Except String Unit) :=
  match getDocItem table doc_id with
  | none => (⟨404, none⟩, table, [])
  | some item =>
    let s3Calls :=
      if delete_s3 && item.s3_key ≠ "" then [(item.s3_key, s3Delete item.s3_key)]
      else []
    (⟨200, some "deleted"⟩, deleteDocItem table doc_id, s3Calls)

/-! ### Authentication — rag_module/app/auth.py, pdf_service/app/auth.py,
and the route wiring of rag_module/app/main.py -/

inductive AuthResult
  | allowed (user : String)
  | unauthorized
deriving Repr, DecidableEq

/-- `rag_module/app/auth.py verify_token`: with no `SERVICE_TOKEN`
configured every caller passes as "anonymous"; with one configured,
missing credentials or a token that fails the constant-time comparison
give 401. -/
def rag_verify_token (serviceToken : Option String) (creds : Option String) :
    AuthResult :=
  match serviceToken with
  | none => .allowed "anonymous"
  | some tok =>
    match creds with
    | none => .unauthorized
    | some c => if c = tok then .allowed "service" else .unauthorized

/-- `pdf_service/app/auth.py authenticate_user`. -/
def pdf_authenticate_user (username password : String) : Option String :=
  if username = "admin" && password = "password" then some username else none

/-- `pdf_service/app/auth.py verify_token` behind `HTTPBasic()`: missing
basic credentials are rejected by the security scheme with 401; bad
credentials by the function itself. -/
def pdf_verify_token (creds : Option (String × String)) : AuthResult :=
  match creds with
  | none => .unauthorized
  | some c =>
    match pdf_authenticate_user c.1 c.2 with
    | some u => .allowed u
    | none => .unauthorized

/-- The `POST /rag/index` route as wired in `rag_module/app/main.py`: the
endpoint signature is `def index_documents(request: schemas.IndexRequest)`
with NO `Depends(auth.verify_token)` (and no app-level dependency), so
FastAPI never consults the service token or the caller's credentials for
this route; the request goes straight to body validation and the handler
body. -/
def handleRagIndexRequest (serviceToken : Option String) (creds : Option String)
    (env : IndexEnv) (body_ids : List String) :
    Except ApiError (List DocResult) × List (List VectorRecord) :=
  let _ := serviceToken
  let _ := creds
  indexEndpoint env body_ids

/-! ### Concrete fixtures used by the witnesses -/

/-- An indexing environment where document "missing" is absent from the
PDF service, "embedfail"'s text breaks the embedder, "upsertfail"'s batch
breaks the vector index, and every other document succeeds. -/
def failingIndexEnv : IndexEnv where
  getDocumentText := fun d =>
    if d = "missing" then .error "404 Client Error: Not Found" else .ok ("text of " ++ d)
  splitText := fun t => [t]
  embedTexts := fun ts =>
    if ts.contains "text of embedfail" then .error "embedding backend down"
    else .ok (ts.map fun _ => [1])
  upsert := fun b =>
    if b.any (fun r => r.doc_id = "upsertfail") then .error "pinecone unavailable"
    else .ok ()

/-- An indexing environment where every document succeeds with one chunk. -/
def sampleIndexEnv : IndexEnv where
  getDocumentText := fun d => .ok ("text of " ++ d)
  splitText := fun t => [t]
  embedTexts := fun ts => .ok (ts.map fun _ => [1])
  upsert := fun _ => .ok ()

/-- An indexing environment whose chunker always yields three chunks. -/
def threeChunkIndexEnv : IndexEnv where
  getDocumentText := fun _ => .ok "c0 c1 c2"
  splitText := fun _ => ["c0", "c1", "c2"]
  embedTexts := fun ts => .ok (ts.map fun _ => [1])
  upsert := fun _ => .ok ()

def sampleQueryRequest : QueryRequest where
  document_ids := ["docA"]
  question := "What is X?"

/-- A query environment returning two matches with scores 0.8 and 0.6. -/
def twoMatchQueryEnv : QueryEnv where
  embedTexts := fun _ => .ok [[1, 0]]
  indexQuery := fun _ _ _ =>
    .ok [⟨4/5, "Relevant chunk 1"⟩, ⟨3/5, "Relevant chunk 2"⟩]
  hfChatCompletion := fun _ => .ok "This is a test answer."
  sendMetricsSink := fun _ => .ok ()
  runId := "run-1"
  elapsedMs := 12

/-- A query environment returning zero matches. -/
def zeroMatchQueryEnv : QueryEnv where
  embedTexts := fun _ => .ok [[1, 0]]
  indexQuery := fun _ _ _ => .ok []
  hfChatCompletion := fun _ => .ok "No context answer."
  sendMetricsSink := fun _ => .ok ()
  runId := "run-2"
  elapsedMs := 5

/-- A query environment whose generative-model call throws and whose
metrics sink also fails. -/
def failingLLMQueryEnv : QueryEnv where
  embedTexts := fun _ => .ok [[1, 0]]
  indexQuery := fun _ _ _ => .ok [⟨1/2, "chunk"⟩]
  hfChatCompletion := fun _ => .error "model overloaded"
  sendMetricsSink := fun _ => .error "sink down"
  runId := "run-3"
  elapsedMs := 7

/-- A query environment whose single match has the cosine score -0.5, so
the mean confidence is outside the `[0,1]` bound of
`schemas.QueryResponse`. -/
def negativeScoreQueryEnv : QueryEnv where
  embedTexts := fun _ => .ok [[1, 0]]
  indexQuery := fun _ _ _ => .ok [⟨-1/2, "dissimilar chunk"⟩]
  hfChatCompletion := fun _ => .ok "Answer built from dissimilar context."
  sendMetricsSink := fun _ => .ok ()
  runId := "run-4"
  elapsedMs := 3

/-- A 1001-character question: 1000 letters followed by one space, so its
raw length exceeds 1000 while its stripped length is exactly 1000. -/
def longPaddedQuestion : String := String.mk (List.replicate 1000 'a' ++ [' '])

/-- A metrics event whose `run_id` is present but empty. -/
def emptyRunIdEvent : MetricsEvent where
  run_id := some ""
  agent_name := some "RAGQueryAgent"
  tokens_consumed := some 5
  tokens_generated := some 3
  response_time_ms := some 12
  confidence_score := some (1/2)
  status := some "completed"

/-- A metrics event with `run_id` set and every other field absent. -/
def bareRunIdEvent : MetricsEvent where
  run_id := some "run-42"
  agent_name := none
  tokens_consumed := none
  tokens_generated := none
  response_time_ms := none
  confidence_score := none
  status := none

def sampleDocItem : DocItem where
  doc_id := "doc1"
  filename := "doc1.pdf"
  upload_timestamp := "2024-01-01T00:00:00+00:00"
  s3_key := "doc1/doc1.pdf"
  tags := []

def sampleDocTable : DocTable := [("doc1", sampleDocItem)]

/-! ### Helper lemmas -/

theorem indexDocuments_results_eq (env : IndexEnv) (ids : List String) :
    (indexDocuments env ids).1 = ids.map (fun d => (processDocument env d).1) := by
  induction ids with
  | nil => rfl
  | cons d rest ih => simp [indexDocuments, ih]

theorem processDocument_doc_id (env : IndexEnv) (d : String) :
    ((processDocument env d).1).doc_id = d := by
  unfold processDocument
  rcases h1 : env.getDocumentText d with e | text <;> simp [h1]
  rcases h2 : env.embedTexts (env.splitText text) with e | embs <;> simp [h2]
  rcases h3 : env.upsert (toUpsert d embs (env.splitText text)) with e | u <;> simp [h3]

theorem dedup_length_eq_iff_nodup (v : List String) :
    v.length = v.dedup.length ↔ v.Nodup := by
  constructor
  · intro h
    have hs : v.dedup = v := (List.dedup_sublist v).eq_of_length h.symm
    rw [← hs]
    exact List.nodup_dedup v
  · intro h
    rw [h.dedup]

theorem validateDocumentIdsIndex_ok_eq {v w : List String}
    (h : validateDocumentIdsIndex v = Except.ok w) : w = v := by
  unfold validateDocumentIdsIndex at h
  split_ifs at h <;> try simp at h
  split at h <;> simp_all

theorem validateDocumentIdsIndex_ok_iff (v : List String) :
    validateDocumentIdsIndex v = Except.ok v ↔
      (v ≠ [] ∧ v.length ≤ 100 ∧ v.Nodup ∧ ∀ d ∈ v, pyStrip d ≠ "") := by
  unfold validateDocumentIdsIndex
  constructor
  · intro hw
    split_ifs at hw with h1 h2 h3 h5 <;> try simp at hw
    split at hw <;> try simp at hw
    refine ⟨?_, by omega, ?_, ?_⟩
    · intro hnil
      exact h3 (by simp [hnil])
    · exact (dedup_length_eq_iff_nodup v).mp (by omega)
    · intro d hd
      have := List.find?_eq_none.mp (by assumption) d hd
      simpa using this
  · rintro ⟨h1, h2, h3, h4⟩
    have hlen : 1 ≤ v.length := List.length_pos.mpr h1
    have hdl : v.length = v.dedup.length := (dedup_length_eq_iff_nodup v).mpr h3
    have hfind : v.find? (fun d => pyStrip d = "") = none :=
      List.find?_eq_none.mpr (fun d hd => by simpa using h4 d hd)
    rw [if_neg (by omega), if_neg (by omega), if_neg (by simp [h1]),
      if_neg (by omega), if_neg (by omega), hfind]

theorem validateDocumentIdsQuery_ok_eq {v w : List String}
    (h : validateDocumentIdsQuery v = Except.ok w) : w = v := by
  unfold validateDocumentIdsQuery at h
  split_ifs at h <;> try simp at h
  split at h <;> simp_all

theorem validateDocumentIdsQuery_ok_iff (v : List String) :
    validateDocumentIdsQuery v = Except.ok v ↔
      (v ≠ [] ∧ v.length ≤ 50 ∧ v.Nodup ∧ ∀ d ∈ v, pyStrip d ≠ "") := by
  unfold validateDocumentIdsQuery
  constructor
  · intro hw
    split_ifs at hw with h1 h2 h3 h5 <;> try simp at hw
    split at hw <;> try simp at hw
    refine ⟨?_, by omega, ?_, ?_⟩
    · intro hnil
      exact h3 (by simp [hnil])
    · exact (dedup_length_eq_iff_nodup v).mp (by omega)
    · intro d hd
      have := List.find?_eq_none.mp (by assumption) d hd
      simpa using this
  · rintro ⟨h1, h2, h3, h4⟩
    have hlen : 1 ≤ v.length := List.length_pos.mpr h1
    have hdl : v.length = v.dedup.length := (dedup_length_eq_iff_nodup v).mpr h3
    have hfind : v.find? (fun d => pyStrip d = "") = none :=
      List.find?_eq_none.mpr (fun d hd => by simpa using h4 d hd)
    rw [if_neg (by omega), if_neg (by omega), if_neg (by simp [h1]),
      if_neg (by omega), if_neg (by omega), hfind]

theorem validateQuestion_ok_eq {q w : String}
    (h : validateQuestion q = Except.ok w) : w = pyStrip q := by
  unfold validateQuestion at h
  split_ifs at h <;> simp_all

theorem validateQuestion_ok_iff (q : String) :
    validateQuestion q = Except.ok (pyStrip q) ↔
      (1 ≤ pyLen q ∧ pyLen q ≤ 1000 ∧ pyStrip q ≠ "") := by
  unfold validateQuestion
  constructor
  · intro hw
    split_ifs at hw with h1 h2 h3 <;> try simp at hw
    exact ⟨by omega, by omega, h3⟩
  · rintro ⟨h1, h2, h3⟩
    rw [if_neg (by omega), if_neg (by omega), if_neg h3]

theorem validateIndexRequest_ok_eq {ids : List String} {req : IndexRequest}
    (h : validateIndexRequest ids = Except.ok req) : req = ⟨ids⟩ := by
  unfold validateIndexRequest at h
  rcases hv : validateDocumentIdsIndex ids with e | w <;> rw [hv] at h
  · simp at h
  · have hw := validateDocumentIdsIndex_ok_eq hv
    subst hw
    simp at h
    exact h.symm

theorem validateQueryRequest_ok_eq {ids : List String} {q : String} {req : QueryRequest}
    (h : validateQueryRequest ids q = Except.ok req) : req = ⟨ids, pyStrip q⟩ := by
  unfold validateQueryRequest at h
  rcases hv : validateDocumentIdsQuery ids with e | w <;> rw [hv] at h
  · simp at h
  · rcases hq : validateQuestion q with e | w2 <;> rw [hq] at h
    · simp at h
    · have e1 := validateDocumentIdsQuery_ok_eq hv
      have e2 := validateQuestion_ok_eq hq
      subst e1
      subst e2
      simp_all

/-! ### Claims -/

/-- Claim C1: for every valid index request, if fetching, chunking,
embedding, or upserting for one document id raises, the result list
records `{doc_id, status: failure}` with the error's message as reason for
that id, and processing continues with the remaining ids (the batch result
is the independent per-document map); a document id absent from the
Document Service yields a failure entry, and a valid request never
surfaces an exception to the caller of Index (the endpoint returns a
result list). -/
theorem index_isolates_per_document_failures (env : IndexEnv) (ids : List String) :
    ((indexDocuments env ids).1 = ids.map (fun d => (processDocument env d).1))
    ∧ (∀ d m, env.getDocumentText d = .error m →
        (processDocument env d).1 = ⟨d, .failure, some m⟩)
    ∧ (∀ d text m, env.getDocumentText d = .ok text →
        env.embedTexts (env.splitText text) = .error m →
        (processDocument env d).1 = ⟨d, .failure, some m⟩)
    ∧ (∀ d text embs m, env.getDocumentText d = .ok text →
        env.embedTexts (env.splitText text) = .ok embs →
        env.upsert (toUpsert d embs (env.splitText text)) = .error m →
        (processDocument env d).1 = ⟨d, .failure, some m⟩)
    ∧ (∀ req, validateIndexRequest ids = .ok req →
        ∃ rs, (indexEndpoint env ids).1 = .ok rs) := by
  refine ⟨indexDocuments_results_eq env ids, ?_, ?_, ?_, ?_⟩
  · intro d m h
    simp [processDocument, h]
  · intro d text m h1 h2
    simp [processDocument, h1, h2]
  · intro d text embs m h1 h2 h3
    simp [processDocument, h1, h2, h3]
  · intro req hreq
    exact ⟨(indexDocuments env req.document_ids).1, by simp [indexEndpoint, hreq]⟩

/-- Witness for C1 at a concrete environment: fetch, embed and upsert
failures each yield the failure entry with the error message; a batch
containing a missing document still processes the rest, and the endpoint
returns a result list rather than an error. -/
theorem index_isolates_per_document_failures_witness :
    (processDocument failingIndexEnv "missing").1 =
      ⟨"missing", .failure, some "404 Client Error: Not Found"⟩
    ∧ (processDocument failingIndexEnv "embedfail").1 =
      ⟨"embedfail", .failure, some "embedding backend down"⟩
    ∧ (processDocument failingIndexEnv "upsertfail").1 =
      ⟨"upsertfail", .failure, some "pinecone unavailable"⟩
    ∧ (indexDocuments failingIndexEnv ["missing", "okdoc"]).1 =
      [⟨"missing", .failure, some "404 Client Error: Not Found"⟩,
        (processDocument failingIndexEnv "okdoc").1]
    ∧ (∃ rs, (indexEndpoint failingIndexEnv ["missing"]).1 = .ok rs) := by
  have h := index_isolates_per_document_failures failingIndexEnv ["missing", "okdoc"]
  refine ⟨?_, ?_, ?_, ?_, ?_⟩
  · exact h.2.1 "missing" "404 Client Error: Not Found" rfl
  · exact h.2.2.1 "embedfail" "text of embedfail" "embedding backend down" rfl rfl
  · exact h.2.2.2.1 "upsertfail" "text of upsertfail" [[1]] "pinecone unavailable"
      rfl rfl rfl
  · rw [h.1]
    simp only [List.map_cons, List.map_nil]
    rw [h.2.1 "missing" "404 Client Error: Not Found" rfl]
  · exact (index_isolates_per_document_failures failingIndexEnv ["missing"]).2.2.2.2
      ⟨["missing"]⟩ rfl

/-- Claim C2: for every valid index request (non-empty, at most 100 ids,
duplicate-free), Index returns exactly one result entry per input document
id, each with status success or failure, in the order of the input id
list. -/
theorem index_one_result_per_id_in_input_order (env : IndexEnv) (ids : List String)
    (req : IndexRequest) (hv : validateIndexRequest ids = .ok req) :
    ((indexDocuments env req.document_ids).1.map DocResult.doc_id = ids)
    ∧ (indexDocuments env req.document_ids).1.length = ids.length
    ∧ ∀ r ∈ (indexDocuments env req.document_ids).1,
        r.status = DocStatus.success ∨ r.status = DocStatus.failure := by
  have hids : req.document_ids = ids := by rw [validateIndexRequest_ok_eq hv]
  subst hids
  refine ⟨?_, ?_, ?_⟩
  · rw [indexDocuments_results_eq]
    rw [List.map_map]
    have : (DocResult.doc_id ∘ fun d => (processDocument env d).1) = id := by
      funext d
      simpa using processDocument_doc_id env d
    rw [this, List.map_id]
  · rw [indexDocuments_results_eq, List.length_map]
  · intro r _
    cases hs : r.status
    · exact Or.inl rfl
    · exact Or.inr rfl

/-- Witness for C2 at a concrete valid two-id request. -/
theorem index_one_result_per_id_in_input_order_witness :
    ((indexDocuments failingIndexEnv (IndexRequest.document_ids ⟨["missing", "okdoc"]⟩)).1.map
        DocResult.doc_id = ["missing", "okdoc"])
    ∧ (indexDocuments failingIndexEnv
        (IndexRequest.document_ids ⟨["missing", "okdoc"]⟩)).1.length = 2 := by
  have h := index_one_result_per_id_in_input_order failingIndexEnv ["missing", "okdoc"]
    ⟨["missing", "okdoc"]⟩ rfl
  exact ⟨h.1, h.2.1⟩

/-- Shape of a successful `querySteps` run: the completed metrics payload
carries exactly the response's computed fields, and the token counts are
the zeros hard-coded in `call_llm`. -/
theorem querySteps_ok_shape (env : QueryEnv) (req : QueryRequest)
    (resp : QueryResponse) (payload : MetricsPayload)
    (h : querySteps env req = .ok (resp, payload)) :
    payload =
      { run_id := resp.run_id
        agent_name := "RAGQueryAgent"
        tokens_consumed := resp.tokens_consumed
        tokens_generated := resp.tokens_generated
        response_time_ms := resp.response_time_ms
        confidence_score := resp.confidence_score
        status := "completed" }
    ∧ resp.tokens_consumed = 0 ∧ resp.tokens_generated = 0
    ∧ resp.run_id = env.runId ∧ resp.response_time_ms = env.elapsedMs := by
  rcases h1 : env.embedTexts [req.question] with e | embs
  · rw [show querySteps env req = .error e by simp [querySteps, h1]] at h
    simp at h
  · rcases embs with _ | ⟨emb, rest⟩
    · rw [show querySteps env req = .error "list index out of range" by
        simp [querySteps, h1]] at h
      simp at h
    · rcases h2 : env.indexQuery emb TOP_K req.document_ids with e | ms
      · rw [show querySteps env req = .error e by simp [querySteps, h1, h2]] at h
        simp at h
      · rcases h3 : env.hfChatCompletion (buildPrompt (joinContext ms) req.question)
          with e | c
        · rw [show querySteps env req = .error e by
            simp [querySteps, h1, h2, call_llm, h3]] at h
          simp at h
        · rw [show querySteps env req = .ok
            ({ run_id := env.runId, answer := c, tokens_consumed := 0,
               tokens_generated := 0, response_time_ms := env.elapsedMs,
               confidence_score := confidenceScore ms },
             { run_id := env.runId, agent_name := "RAGQueryAgent",
               tokens_consumed := 0, tokens_generated := 0,
               response_time_ms := env.elapsedMs,
               confidence_score := confidenceScore ms, status := "completed" }) by
            simp [querySteps, h1, h2, call_llm, h3]] at h
          simp only [Except.ok.injEq, Prod.mk.injEq] at h
          obtain ⟨hresp, hpay⟩ := h
          subst hresp
          subst hpay
          exact ⟨rfl, rfl, rfl, rfl, rfl⟩

/-- Shape of a successful `mkQueryResponse`: pydantic returns the
validated object unchanged. -/
theorem mkQueryResponse_ok_eq {x y : QueryResponse}
    (h : mkQueryResponse x = .ok y) : y = x := by
  unfold mkQueryResponse at h
  split_ifs at h <;> simp_all

/-- Claim C3 (amended): the completed/failed metrics policy holds as
claimed on every path where steps 2–6 fail or where the computed response
passes the `schemas.QueryResponse` bounds — exactly one record, completed
with the computed fields or failed with zeroed counts and confidence 0.0,
the sink failure swallowed, the caller seeing only the generic error.
But when steps 2–6 succeed and the computed `confidence_score` (or
`response_time_ms`) violates the response-model bounds — reachable, since
cosine scores range over [-1,1] — `schemas.QueryResponse(...)` raises at
the `return` inside the `try` AFTER the completed record was sent, so a
second, failed record is emitted (two per invocation, not one) and the
caller receives the generic error. -/
theorem query_metrics_emission_policy (env : QueryEnv) (req : QueryRequest) :
    (1 ≤ (queryRag env req).emissions.length
      ∧ (queryRag env req).emissions.length ≤ 2)
    ∧ (∀ e, querySteps env req = .error e →
        (queryRag env req).response = .error (.rag 500 "LLM_ERROR" "Failed to process RAG query")
        ∧ (queryRag env req).emissions.map Prod.fst = [failurePayload env]
        ∧ (failurePayload env).status = "failed"
        ∧ (failurePayload env).tokens_consumed = 0
        ∧ (failurePayload env).tokens_generated = 0
        ∧ (failurePayload env).confidence_score = 0)
    ∧ (∀ resp payload, querySteps env req = .ok (resp, payload) →
        queryResponseInRange resp →
        (queryRag env req).response = .ok resp
        ∧ (queryRag env req).emissions.map Prod.fst = [payload]
        ∧ payload.status = "completed"
        ∧ payload.run_id = resp.run_id
        ∧ payload.tokens_consumed = resp.tokens_consumed
        ∧ payload.tokens_generated = resp.tokens_generated
        ∧ payload.response_time_ms = resp.response_time_ms
        ∧ payload.confidence_score = resp.confidence_score)
    ∧ (∀ resp payload, querySteps env req = .ok (resp, payload) →
        ¬ queryResponseInRange resp →
        (queryRag env req).response = .error (.rag 500 "LLM_ERROR" "Failed to process RAG query")
        ∧ (queryRag env req).emissions.map Prod.fst = [payload, failurePayload env]
        ∧ payload.status = "completed"
        ∧ (failurePayload env).status = "failed")
    ∧ (∀ sink,
        (queryRag { env with sendMetricsSink := sink } req).response
          = (queryRag env req).response
        ∧ (queryRag { env with sendMetricsSink := sink } req).emissions.map Prod.fst
          = (queryRag env req).emissions.map Prod.fst) := by
  refine ⟨?_, ?_, ?_, ?_, ?_⟩
  · rcases h : querySteps env req with e | ⟨resp, payload⟩
    · simp [queryRag, h]
    · rcases hm : mkQueryResponse resp with e2 | r <;> simp [queryRag, h, hm]
  · intro e h
    simp [queryRag, h, failurePayload]
  · intro resp payload h hin
    have hs := (querySteps_ok_shape env req resp payload h).1
    subst hs
    simp [queryRag, h, mkQueryResponse, hin]
  · intro resp payload h hnin
    have hs := (querySteps_ok_shape env req resp payload h).1
    subst hs
    simp [queryRag, h, mkQueryResponse, hnin, failurePayload]
  · intro sink
    have hq2 : querySteps { env with sendMetricsSink := sink } req = querySteps env req := rfl
    rcases h : querySteps env req with e | ⟨resp, payload⟩
    · simp [queryRag, hq2, h, failurePayload]
    · rcases hm : mkQueryResponse resp with e2 | r <;>
        simp [queryRag, hq2, h, hm, failurePayload]

/-- Counterexample to C3 as stated: at the valid request `["docA"],
"What is X?"` against an index whose single match has cosine score -0.5,
the invocation emits TWO metrics records — the completed one (sent before
the response model is constructed) and then the failed one — and the
caller gets the generic error; the claim says exactly one record is
emitted per invocation. -/
theorem query_double_metrics_emission_counterexample :
    (queryRag negativeScoreQueryEnv sampleQueryRequest).emissions.length = 2
    ∧ (queryRag negativeScoreQueryEnv sampleQueryRequest).emissions.map
        (fun p => p.1.status) = ["completed", "failed"]
    ∧ (queryRag negativeScoreQueryEnv sampleQueryRequest).response
      = .error (.rag 500 "LLM_ERROR" "Failed to process RAG query") := by
  have hq : querySteps negativeScoreQueryEnv sampleQueryRequest = .ok
      (⟨"run-4", "Answer built from dissimilar context.", 0, 0, 3,
        confidenceScore [⟨-1/2, "dissimilar chunk"⟩]⟩,
       ⟨"run-4", "RAGQueryAgent", 0, 0, 3,
        confidenceScore [⟨-1/2, "dissimilar chunk"⟩], "completed"⟩) := rfl
  have hnin : ¬ queryResponseInRange
      (⟨"run-4", "Answer built from dissimilar context.", 0, 0, 3,
        confidenceScore [⟨-1/2, "dissimilar chunk"⟩]⟩ : QueryResponse) := by
    norm_num [queryResponseInRange, confidenceScore, List.sum_cons, List.sum_nil]
  refine ⟨?_, ?_, ?_⟩ <;>
    simp [queryRag, hq, mkQueryResponse, hnin, failurePayload]

/-- Witness for C3 (amended): the failing-LLM environment emits exactly
the failed record; the in-range two-match environment emits exactly the
completed record and returns the response; the out-of-range environment
emits the completed then the failed record. -/
theorem query_metrics_emission_policy_witness :
    (queryRag failingLLMQueryEnv sampleQueryRequest).emissions.map Prod.fst
      = [failurePayload failingLLMQueryEnv]
    ∧ (queryRag twoMatchQueryEnv sampleQueryRequest).emissions.length = 1
    ∧ (queryRag twoMatchQueryEnv sampleQueryRequest).response
        = .ok { run_id := "run-1", answer := "This is a test answer.",
                tokens_consumed := 0, tokens_generated := 0, response_time_ms := 12,
                confidence_score := confidenceScore
                  [⟨4/5, "Relevant chunk 1"⟩, ⟨3/5, "Relevant chunk 2"⟩] }
    ∧ (queryRag negativeScoreQueryEnv sampleQueryRequest).emissions.length = 2 := by
  have h1 := query_metrics_emission_policy failingLLMQueryEnv sampleQueryRequest
  have h2 := query_metrics_emission_policy twoMatchQueryEnv sampleQueryRequest
  have h3 := query_metrics_emission_policy negativeScoreQueryEnv sampleQueryRequest
  have hf := h1.2.1 "model overloaded" rfl
  have hs := h2.2.2.1
    { run_id := "run-1", answer := "This is a test answer.", tokens_consumed := 0,
      tokens_generated := 0, response_time_ms := 12,
      confidence_score := confidenceScore
        [⟨4/5, "Relevant chunk 1"⟩, ⟨3/5, "Relevant chunk 2"⟩] }
    { run_id := "run-1", agent_name := "RAGQueryAgent", tokens_consumed := 0,
      tokens_generated := 0, response_time_ms := 12,
      confidence_score := confidenceScore
        [⟨4/5, "Relevant chunk 1"⟩, ⟨3/5, "Relevant chunk 2"⟩],
      status := "completed" }
    rfl (by norm_num [queryResponseInRange, confidenceScore, List.sum_cons, List.sum_nil])
  have hn := h3.2.2.2.1
    { run_id := "run-4", answer := "Answer built from dissimilar context.",
      tokens_consumed := 0, tokens_generated := 0, response_time_ms := 3,
      confidence_score := confidenceScore [⟨-1/2, "dissimilar chunk"⟩] }
    { run_id := "run-4", agent_name := "RAGQueryAgent", tokens_consumed := 0,
      tokens_generated := 0, response_time_ms := 3,
      confidence_score := confidenceScore [⟨-1/2, "dissimilar chunk"⟩],
      status := "completed" }
    rfl (by norm_num [queryResponseInRange, confidenceScore, List.sum_cons, List.sum_nil])
  have hlen1 : (queryRag twoMatchQueryEnv sampleQueryRequest).emissions.length = 1 := by
    have := congrArg List.length hs.2.1
    simpa using this
  have hlen2 : (queryRag negativeScoreQueryEnv sampleQueryRequest).emissions.length = 2 := by
    have := congrArg List.length hn.2.1
    simpa using this
  exact ⟨hf.2.1, hlen1, hs.1, hlen2⟩

/-- Claim C4: for every successful query, `confidence_score` equals the
arithmetic mean of the similarity scores of the matches returned by the
vector index (third conjunct), the query does succeed with that mean
whenever the steps succeed and the mean respects the response-model
bounds, and with zero matches it succeeds with `confidence_score = 0.0`
and no division by zero. -/
theorem query_confidence_score_is_mean (env : QueryEnv) (req : QueryRequest)
    (emb : List ℚ) (embRest : List (List ℚ)) (ms : List QMatch) (ans : String)
    (h1 : env.embedTexts [req.question] = .ok (emb :: embRest))
    (h2 : env.indexQuery emb TOP_K req.document_ids = .ok ms)
    (h3 : env.hfChatCompletion (buildPrompt (joinContext ms) req.question) = .ok ans)
    (ht : 0 ≤ env.elapsedMs) :
    ((0 ≤ confidenceScore ms ∧ confidenceScore ms ≤ 1) →
      ∃ resp, (queryRag env req).response = .ok resp
        ∧ resp.confidence_score
            = (if ms = [] then 0 else (ms.map QMatch.score).sum / (ms.length : ℚ)))
    ∧ (ms = [] →
      ∃ resp, (queryRag env req).response = .ok resp ∧ resp.confidence_score = 0)
    ∧ (∀ resp, (queryRag env req).response = .ok resp →
        resp.confidence_score
          = (if ms = [] then 0 else (ms.map QMatch.score).sum / (ms.length : ℚ))) := by
  have hconf : confidenceScore ms
      = (if ms = [] then 0 else (ms.map QMatch.score).sum / (ms.length : ℚ)) := by
    by_cases hms : ms = [] <;> simp [confidenceScore, List.isEmpty_iff, hms]
  have hq : querySteps env req = .ok
      (⟨env.runId, ans, 0, 0, env.elapsedMs, confidenceScore ms⟩,
       ⟨env.runId, "RAGQueryAgent", 0, 0, env.elapsedMs, confidenceScore ms,
        "completed"⟩) := by
    simp [querySteps, h1, h2, call_llm, h3]
  refine ⟨?_, ?_, ?_⟩
  · rintro ⟨hc0, hc1⟩
    refine ⟨⟨env.runId, ans, 0, 0, env.elapsedMs, confidenceScore ms⟩, ?_, hconf⟩
    simp [queryRag, hq, mkQueryResponse, queryResponseInRange, ht, hc0, hc1]
  · intro hms
    subst hms
    refine ⟨⟨env.runId, ans, 0, 0, env.elapsedMs, confidenceScore []⟩, ?_, rfl⟩
    simp [queryRag, hq, mkQueryResponse, queryResponseInRange, ht, confidenceScore]
  · intro resp h
    rcases hm : mkQueryResponse
        (⟨env.runId, ans, 0, 0, env.elapsedMs, confidenceScore ms⟩ : QueryResponse)
      with e2 | r
    · simp [queryRag, hq, hm] at h
    · have hr := mkQueryResponse_ok_eq hm
      simp [queryRag, hq, hm] at h
      rw [← h, hr]
      exact hconf

/-- Witness for C4: two matches with scores 0.8 and 0.6 give a successful
response with confidence 0.7, and zero matches give a successful response
with confidence 0. -/
theorem query_confidence_score_is_mean_witness :
    (∃ resp, (queryRag twoMatchQueryEnv sampleQueryRequest).response = .ok resp
      ∧ resp.confidence_score = 7/10)
    ∧ (∃ resp, (queryRag zeroMatchQueryEnv sampleQueryRequest).response = .ok resp
      ∧ resp.confidence_score = 0) := by
  constructor
  · obtain ⟨resp, ha, hb⟩ := (query_confidence_score_is_mean twoMatchQueryEnv
      sampleQueryRequest [1, 0] [] [⟨4/5, "Relevant chunk 1"⟩, ⟨3/5, "Relevant chunk 2"⟩]
      "This is a test answer." rfl rfl rfl (by norm_num [twoMatchQueryEnv])).1
      (by norm_num [confidenceScore, List.sum_cons, List.sum_nil])
    refine ⟨resp, ha, ?_⟩
    rw [hb, if_neg (by simp)]
    norm_num [List.sum_cons, List.sum_nil]
  · obtain ⟨resp, ha, hc⟩ := (query_confidence_score_is_mean zeroMatchQueryEnv
      sampleQueryRequest [1, 0] [] [] "No context answer." rfl rfl rfl
      (by norm_num [zeroMatchQueryEnv])).2.1 rfl
    exact ⟨resp, ha, hc⟩

/-- Claim C5: when a document's text splits into `n` chunks and the
embedder returns `n` vectors, indexing performs exactly one upsert call
whose batch has exactly `n` records with ids `<doc_id>_0 … <doc_id>_<n-1>`
in chunk order, each carrying the chunk's embedding and the payload
`{doc_id, text: chunk}`. -/
theorem index_upsert_batch_shape (env : IndexEnv) (d text : String)
    (chunks : List String) (embs : List (List ℚ)) (n : Nat)
    (h1 : env.getDocumentText d = .ok text)
    (hs : env.splitText text = chunks)
    (h2 : env.embedTexts chunks = .ok embs)
    (hc : chunks.length = n) (he : embs.length = n) :
    (processDocument env d).2 = [toUpsert d embs chunks]
    ∧ (toUpsert d embs chunks).length = n
    ∧ (toUpsert d embs chunks).map VectorRecord.id
        = (List.range n).map (fun i => d ++ "_" ++ toString i)
    ∧ (toUpsert d embs chunks).map VectorRecord.embedding = embs
    ∧ (toUpsert d embs chunks).map VectorRecord.text = chunks
    ∧ (toUpsert d embs chunks).map VectorRecord.doc_id = List.replicate n d := by
  have hzl : (embs.zip chunks).length = n := by
    rw [List.length_zip, hc, he]
    exact Nat.min_self n
  refine ⟨?_, ?_, ?_, ?_, ?_, ?_⟩
  · rcases h3 : env.upsert (toUpsert d embs chunks) with e | u <;>
      simp [processDocument, h1, hs, h2, h3]
  · simp [toUpsert, List.enum_length, hzl]
  · rw [toUpsert, List.map_map]
    rw [show (VectorRecord.id ∘ fun p : Nat × (List ℚ × String) =>
        VectorRecord.mk (d ++ "_" ++ toString p.1) p.2.1 d p.2.2)
      = ((fun i => d ++ "_" ++ toString i) ∘ Prod.fst) from rfl]
    rw [← List.map_map, List.enum_map_fst, hzl]
  · rw [toUpsert, List.map_map]
    rw [show (VectorRecord.embedding ∘ fun p : Nat × (List ℚ × String) =>
        VectorRecord.mk (d ++ "_" ++ toString p.1) p.2.1 d p.2.2)
      = (Prod.fst ∘ Prod.snd) from rfl]
    rw [← List.map_map, List.enum_map_snd]
    exact List.map_fst_zip embs chunks (by omega)
  · rw [toUpsert, List.map_map]
    rw [show (VectorRecord.text ∘ fun p : Nat × (List ℚ × String) =>
        VectorRecord.mk (d ++ "_" ++ toString p.1) p.2.1 d p.2.2)
      = (Prod.snd ∘ Prod.snd) from rfl]
    rw [← List.map_map, List.enum_map_snd]
    exact List.map_snd_zip embs chunks (by omega)
  · rw [toUpsert, List.map_map]
    rw [show (VectorRecord.doc_id ∘ fun p : Nat × (List ℚ × String) =>
        VectorRecord.mk (d ++ "_" ++ toString p.1) p.2.1 d p.2.2)
      = (fun _ => d) from rfl]
    rw [List.map_const', List.enum_length, hzl]

/-- Witness for C5: a document splitting into three chunks with three
embeddings yields one upsert batch with ids `docA_0, docA_1, docA_2`. -/
theorem index_upsert_batch_shape_witness :
    (processDocument threeChunkIndexEnv "docA").2
      = [toUpsert "docA" [[1], [1], [1]] ["c0", "c1", "c2"]]
    ∧ (toUpsert "docA" [[1], [1], [1]] ["c0", "c1", "c2"]).map VectorRecord.id
      = ["docA_0", "docA_1", "docA_2"]
    ∧ (toUpsert "docA" [[1], [1], [1]] ["c0", "c1", "c2"]).length = 3 := by
  have h := index_upsert_batch_shape threeChunkIndexEnv "docA" "c0 c1 c2"
    ["c0", "c1", "c2"] [[1], [1], [1]] 3 rfl rfl rfl rfl rfl
  refine ⟨h.1, ?_, h.2.1⟩
  rw [h.2.2.1]
  rfl

/-- Claim C10: every successful query returns `tokens_consumed = 0` and
`tokens_generated = 0`, and every emitted metrics payload (completed or
failed) carries zero token counts, because `call_llm` always reports
zeros. -/
theorem query_token_counts_always_zero (env : QueryEnv) (req : QueryRequest) :
    (∀ prompt r, call_llm env prompt = .ok r →
        r.tokens_consumed = 0 ∧ r.tokens_generated = 0)
    ∧ (∀ resp, (queryRag env req).response = .ok resp →
        resp.tokens_consumed = 0 ∧ resp.tokens_generated = 0)
    ∧ (∀ p ∈ (queryRag env req).emissions,
        p.1.tokens_consumed = 0 ∧ p.1.tokens_generated = 0) := by
  refine ⟨?_, ?_, ?_⟩
  · intro prompt r h
    unfold call_llm at h
    rcases h4 : env.hfChatCompletion prompt with e | c <;> rw [h4] at h <;> simp at h
    rw [← h]
    exact ⟨rfl, rfl⟩
  · intro resp h
    rcases hq : querySteps env req with e | ⟨resp0, payload0⟩
    · simp [queryRag, hq] at h
    · rcases hm : mkQueryResponse resp0 with e2 | r
      · simp [queryRag, hq, hm] at h
      · have hr := mkQueryResponse_ok_eq hm
        have hsh := querySteps_ok_shape env req resp0 payload0 hq
        simp [queryRag, hq, hm] at h
        rw [← h, hr]
        exact ⟨hsh.2.1, hsh.2.2.1⟩
  · intro p hp
    rcases hq : querySteps env req with e | ⟨resp0, payload0⟩
    · simp [queryRag, hq] at hp
      rw [hp]
      exact ⟨rfl, rfl⟩
    · have hsh := querySteps_ok_shape env req resp0 payload0 hq
      rcases hm : mkQueryResponse resp0 with e2 | r
      · simp [queryRag, hq, hm] at hp
        rcases hp with hp | hp
        · rw [hp]
          show payload0.tokens_consumed = 0 ∧ payload0.tokens_generated = 0
          rw [hsh.1]
          exact ⟨hsh.2.1, hsh.2.2.1⟩
        · rw [hp]
          exact ⟨rfl, rfl⟩
      · simp [queryRag, hq, hm] at hp
        rw [hp]
        show payload0.tokens_consumed = 0 ∧ payload0.tokens_generated = 0
        rw [hsh.1]
        exact ⟨hsh.2.1, hsh.2.2.1⟩

/-- Witness for C10: the successful two-match query returns zero token
counts even though the model replied. -/
theorem query_token_counts_always_zero_witness :
    (queryRag twoMatchQueryEnv sampleQueryRequest).response
      = .ok { run_id := "run-1", answer := "This is a test answer.",
              tokens_consumed := 0, tokens_generated := 0,
              response_time_ms := 12, confidence_score := 7/10 }
    ∧ ({ run_id := "run-1", answer := "This is a test answer.",
         tokens_consumed := 0, tokens_generated := 0,
         response_time_ms := 12, confidence_score := 7/10 }
        : QueryResponse).tokens_consumed = 0 := by
  have hresp : (queryRag twoMatchQueryEnv sampleQueryRequest).response
      = .ok { run_id := "run-1", answer := "This is a test answer.",
              tokens_consumed := 0, tokens_generated := 0,
              response_time_ms := 12, confidence_score := 7/10 } := by
    norm_num [queryRag, querySteps, twoMatchQueryEnv, sampleQueryRequest, call_llm,
      mkQueryResponse, queryResponseInRange, confidenceScore, joinContext, buildPrompt,
      List.sum_cons, List.sum_nil]
  exact ⟨hresp, ((query_token_counts_always_zero twoMatchQueryEnv
    sampleQueryRequest).2.1 _ hresp).1⟩

theorem validateQueryRequest_ok_iff (ids : List String) (q : String) :
    validateQueryRequest ids q = Except.ok ⟨ids, pyStrip q⟩ ↔
      (ids ≠ [] ∧ ids.length ≤ 50 ∧ ids.Nodup ∧ (∀ d ∈ ids, pyStrip d ≠ "")
        ∧ 1 ≤ pyLen q ∧ pyLen q ≤ 1000 ∧ pyStrip q ≠ "") := by
  constructor
  · intro h
    unfold validateQueryRequest at h
    rcases hv : validateDocumentIdsQuery ids with e | w <;> rw [hv] at h
    · simp at h
    · rcases hq : validateQuestion q with e | w2 <;> rw [hq] at h
      · simp at h
      · have e1 := validateDocumentIdsQuery_ok_eq hv
        rw [e1] at hv
        have e2 := validateQuestion_ok_eq hq
        rw [e2] at hq
        have c1 := (validateDocumentIdsQuery_ok_iff ids).mp hv
        have c2 := (validateQuestion_ok_iff q).mp hq
        exact ⟨c1.1, c1.2.1, c1.2.2.1, c1.2.2.2, c2.1, c2.2.1, c2.2.2⟩
  · rintro ⟨a1, a2, a3, a4, b1, b2, b3⟩
    simp [validateQueryRequest,
      (validateDocumentIdsQuery_ok_iff ids).mpr ⟨a1, a2, a3, a4⟩,
      (validateQuestion_ok_iff q).mpr ⟨b1, b2, b3⟩]

theorem validateIndexRequest_ok_iff (ids : List String) :
    validateIndexRequest ids = Except.ok ⟨ids⟩ ↔
      (ids ≠ [] ∧ ids.length ≤ 100 ∧ ids.Nodup ∧ ∀ d ∈ ids, pyStrip d ≠ "") := by
  constructor
  · intro h
    unfold validateIndexRequest at h
    rcases hv : validateDocumentIdsIndex ids with e | w <;> rw [hv] at h
    · simp at h
    · have e1 := validateDocumentIdsIndex_ok_eq hv
      rw [e1] at hv
      exact (validateDocumentIdsIndex_ok_iff ids).mp hv
  · intro hc
    simp [validateIndexRequest, (validateDocumentIdsIndex_ok_iff ids).mpr hc]

/-- Claim C6 (amended): query validation accepts exactly when the id list
is non-empty, has at most 50 unique non-blank ids, AND the RAW question
length is between 1 and 1000 with a non-blank stripped value — so a
question whose raw length exceeds 1000 is rejected even when its trimmed
length is at most 1000, because the `Field(max_length=1000)` bound runs on
the raw string before the trimming validator.  Index validation accepts
exactly non-empty lists of at most 100 unique non-blank ids.  Every
rejection is a 422 validation response with no side effects: no metrics
emission and no vector-store upsert. -/
theorem validation_gate_characterization (qenv : QueryEnv) (ienv : IndexEnv)
    (ids : List String) (q : String) :
    (validateQueryRequest ids q = .ok ⟨ids, pyStrip q⟩ ↔
      (ids ≠ [] ∧ ids.length ≤ 50 ∧ ids.Nodup ∧ (∀ d ∈ ids, pyStrip d ≠ "")
        ∧ 1 ≤ pyLen q ∧ pyLen q ≤ 1000 ∧ pyStrip q ≠ ""))
    ∧ (validateIndexRequest ids = .ok ⟨ids⟩ ↔
      (ids ≠ [] ∧ ids.length ≤ 100 ∧ ids.Nodup ∧ ∀ d ∈ ids, pyStrip d ≠ ""))
    ∧ (∀ e, validateQueryRequest ids q = .error e →
        (queryEndpoint qenv ids q).1 = .error (.validation e)
        ∧ (ApiError.validation e).statusCode = 422
        ∧ (queryEndpoint qenv ids q).2 = [])
    ∧ (∀ e, validateIndexRequest ids = .error e →
        (indexEndpoint ienv ids).1 = .error (.validation e)
        ∧ (ApiError.validation e).statusCode = 422
        ∧ (indexEndpoint ienv ids).2 = []) := by
  refine ⟨validateQueryRequest_ok_iff ids q, validateIndexRequest_ok_iff ids, ?_, ?_⟩
  · intro e h
    exact ⟨by simp [queryEndpoint, h], rfl, by simp [queryEndpoint, h]⟩
  · intro e h
    exact ⟨by simp [indexEndpoint, h], rfl, by simp [indexEndpoint, h]⟩

/-- Counterexample to C6 as stated: a question of raw length 1001 whose
stripped length is 1000 (within the claimed 1–1000 trimmed window) is
REJECTED by the code, with no metrics emission — the claim says it would
be accepted. -/
theorem question_trim_order_counterexample :
    pyLen longPaddedQuestion = 1001
    ∧ pyLen (pyStrip longPaddedQuestion) = 1000
    ∧ pyStrip longPaddedQuestion ≠ ""
    ∧ validateQuestion longPaddedQuestion
        = .error "String should have at most 1000 characters"
    ∧ validateQueryRequest ["docA"] longPaddedQuestion
        = .error "String should have at most 1000 characters" := by
  refine ⟨rfl, rfl, ?_, rfl, rfl⟩
  intro h
  have : pyLen (pyStrip longPaddedQuestion) = 0 := by rw [h]; rfl
  rw [show pyLen (pyStrip longPaddedQuestion) = 1000 from rfl] at this
  exact absurd this (by decide)

/-- Witness for C6 (amended): a well-formed request passes validation;
duplicate ids and an empty index list are rejected with 422 and no
side effects. -/
theorem validation_gate_characterization_witness :
    validateQueryRequest ["docA"] "What is X?" = .ok ⟨["docA"], pyStrip "What is X?"⟩
    ∧ ((queryEndpoint twoMatchQueryEnv ["a", "a"] "q").1
        = .error (.validation "document_ids must be unique")
      ∧ (queryEndpoint twoMatchQueryEnv ["a", "a"] "q").2 = [])
    ∧ ((indexEndpoint sampleIndexEnv []).1
        = .error (.validation "List should have at least 1 item")
      ∧ (indexEndpoint sampleIndexEnv []).2 = []) := by
  have h := validation_gate_characterization twoMatchQueryEnv sampleIndexEnv ["docA"] "What is X?"
  have h2 := validation_gate_characterization twoMatchQueryEnv sampleIndexEnv ["a", "a"] "q"
  have h3 := validation_gate_characterization twoMatchQueryEnv sampleIndexEnv ([] : List String) "q"
  refine ⟨h.1.mpr ⟨by simp, by decide, by decide, by decide, by decide, by decide, by decide⟩,
    ?_, ?_⟩
  · have hr := h2.2.2.1 "document_ids must be unique" rfl
    exact ⟨hr.1, hr.2.2⟩
  · have hr := h3.2.2.2 "List should have at least 1 item" rfl
    exact ⟨hr.1, hr.2.2⟩

theorem find?_key_filter (t : MetricsTable) (k k' : String × String) (h : k' ≠ k) :
    List.find? (fun p => p.1 = k') (List.filter (fun p => p.1 ≠ k) t)
      = List.find? (fun p => p.1 = k') t := by
  induction t with
  | nil => rfl
  | cons a t ih =>
    by_cases ha : a.1 = k
    · rw [List.filter_cons_of_neg (by simp [ha]), ih,
        List.find?_cons_of_neg t (by simp [ha]; exact Ne.symm h)]
    · rw [List.filter_cons_of_pos (by simp [ha])]
      by_cases hk2 : a.1 = k'
      · rw [List.find?_cons_of_pos _ (by simp [hk2]),
          List.find?_cons_of_pos t (by simp [hk2])]
      · rw [List.find?_cons_of_neg _ (by simp [hk2]),
          List.find?_cons_of_neg t (by simp [hk2]), ih]

theorem lookupMetrics_put_self (t : MetricsTable) (k : String × String) (v : MetricsItem) :
    lookupMetrics (putMetricsItem t k v) k = some v := by
  simp [lookupMetrics, putMetricsItem, List.find?_cons]

theorem lookupMetrics_put_other (t : MetricsTable) (k k' : String × String)
    (v : MetricsItem) (h : k' ≠ k) :
    lookupMetrics (putMetricsItem t k v) k' = lookupMetrics t k' := by
  simp only [lookupMetrics, putMetricsItem]
  rw [List.find?_cons_of_neg _ (by simp; exact Ne.symm h), find?_key_filter t k k' h]

/-- Claim C7 (amended): a metrics-sink call whose `run_id` is absent OR
present-but-empty (Python falsiness) is rejected with 400 and writes
nothing; for any non-empty `run_id` the stored record fills absent numeric
fields with 0 and absent status with "unknown", carries the write-time
timestamp, is keyed by `(run_id, timestamp)` leaving every other key
untouched, and the call returns 200 `{status: ok, run_id}`. -/
theorem metrics_sink_contract (event : MetricsEvent) (now : String) (table : MetricsTable) :
    ((event.run_id = none ∨ event.run_id = some "") →
      (store_agent_metrics event now table).1 = ⟨400, .err "Missing run_id"⟩
      ∧ (store_agent_metrics event now table).2 = table)
    ∧ (∀ r, event.run_id = some r → r ≠ "" →
        (store_agent_metrics event now table).1 = ⟨200, .ok r⟩
        ∧ lookupMetrics (store_agent_metrics event now table).2 (r, now) = some
            { run_id := r
              timestamp := now
              agent_name := event.agent_name
              tokens_consumed := event.tokens_consumed.getD 0
              tokens_generated := event.tokens_generated.getD 0
              response_time_ms := event.response_time_ms.getD 0
              confidence_score := event.confidence_score.getD 0
              status := event.status.getD "unknown" }
        ∧ ∀ k, k ≠ (r, now) →
            lookupMetrics (store_agent_metrics event now table).2 k
              = lookupMetrics table k) := by
  constructor
  · intro h
    rcases h with h | h <;> simp [store_agent_metrics, h]
  · intro r hr hne
    refine ⟨by simp [store_agent_metrics, hr, hne], ?_, ?_⟩
    · rw [show (store_agent_metrics event now table).2
          = putMetricsItem table (r, now)
              { run_id := r, timestamp := now, agent_name := event.agent_name,
                tokens_consumed := event.tokens_consumed.getD 0,
                tokens_generated := event.tokens_generated.getD 0,
                response_time_ms := event.response_time_ms.getD 0,
                confidence_score := event.confidence_score.getD 0,
                status := event.status.getD "unknown" } by
        simp [store_agent_metrics, hr, hne]]
      exact lookupMetrics_put_self _ _ _
    · intro k hk
      rw [show (store_agent_metrics event now table).2
          = putMetricsItem table (r, now)
              { run_id := r, timestamp := now, agent_name := event.agent_name,
                tokens_consumed := event.tokens_consumed.getD 0,
                tokens_generated := event.tokens_generated.getD 0,
                response_time_ms := event.response_time_ms.getD 0,
                confidence_score := event.confidence_score.getD 0,
                status := event.status.getD "unknown" } by
        simp [store_agent_metrics, hr, hne]]
      exact lookupMetrics_put_other _ _ _ _ hk

/-- Counterexample to C7 as stated: a payload whose `run_id` is PRESENT
but empty is rejected with 400 and nothing is stored, whereas the claim
requires every present-`run_id` call to be stored and answered with
200. -/
theorem metrics_empty_run_id_counterexample :
    emptyRunIdEvent.run_id = some ""
    ∧ (store_agent_metrics emptyRunIdEvent "2024-01-01T00:00:00+00:00" []).1
        = ⟨400, .err "Missing run_id"⟩
    ∧ (store_agent_metrics emptyRunIdEvent "2024-01-01T00:00:00+00:00" []).2 = [] :=
  ⟨rfl, rfl, rfl⟩

/-- Witness for C7 (amended): a bare event with only `run_id` set is
stored with zero/unknown defaults under the write-time key and answered
with 200; a missing `run_id` is rejected leaving the table unchanged. -/
theorem metrics_sink_contract_witness :
    (store_agent_metrics bareRunIdEvent "t0" []).1 = ⟨200, .ok "run-42"⟩
    ∧ lookupMetrics (store_agent_metrics bareRunIdEvent "t0" []).2 ("run-42", "t0")
        = some { run_id := "run-42", timestamp := "t0", agent_name := none,
                 tokens_consumed := 0, tokens_generated := 0, response_time_ms := 0,
                 confidence_score := 0, status := "unknown" }
    ∧ (store_agent_metrics emptyRunIdEvent "t0" []).2 = [] := by
  have h := metrics_sink_contract bareRunIdEvent "t0" []
  have h2 := metrics_sink_contract emptyRunIdEvent "t0" []
  have hr := h.2 "run-42" rfl (by decide)
  exact ⟨hr.1, hr.2.1, (h2.1 (Or.inr rfl)).2⟩

/-- Claim C8: deleting an existing document with blob purge requested
returns 200 `{status: deleted}` and removes the metadata record no matter
what the blob-store delete does (including throwing); the S3 delete is
attempted exactly once when the stored record has a non-empty `s3_key`;
deleting a missing document returns 404 and deletes nothing. -/
theorem delete_document_policies (table : DocTable) (doc_id : String)
    (item : DocItem) (s3Delete : String → Except String Unit)
    (hfound : getDocItem table doc_id = some item) :
    ((delete_document table doc_id true s3Delete).1 = ⟨200, some "deleted"⟩
      ∧ getDocItem (delete_document table doc_id true s3Delete).2.1 doc_id = none
      ∧ (item.s3_key ≠ "" →
          (delete_document table doc_id true s3Delete).2.2
            = [(item.s3_key, s3Delete item.s3_key)]))
    ∧ (∀ t d s3d, getDocItem t d = none →
        (delete_document t d true s3d).1 = ⟨404, none⟩
        ∧ (delete_document t d true s3d).2.1 = t) := by
  constructor
  · refine ⟨by simp [delete_document, hfound], ?_, ?_⟩
    · simp only [delete_document, hfound]
      simp only [getDocItem, deleteDocItem]
      rw [show (List.find? (fun p => p.1 = doc_id)
          (List.filter (fun p => p.1 ≠ doc_id) table)) = none from ?_]
      · rfl
      · rw [List.find?_eq_none]
        intro p hp
        have hmem := (List.mem_filter.mp hp).2
        simp at hmem ⊢
        exact hmem
    · intro hkey
      simp [delete_document, hfound, hkey]
  · intro t d s3d h
    exact ⟨by simp [delete_document, h], by simp [delete_document, h]⟩

/-- Witness for C8: with a concrete one-document table and an S3 delete
that always throws, the purge-delete still returns 200 and removes the
record (and the S3 delete was attempted and failed); a missing id gives
404 with the table unchanged. -/
theorem delete_document_policies_witness :
    (delete_document sampleDocTable "doc1" true (fun _ => .error "S3 delete failed")).1
      = ⟨200, some "deleted"⟩
    ∧ getDocItem (delete_document sampleDocTable "doc1" true
        (fun _ => .error "S3 delete failed")).2.1 "doc1" = none
    ∧ (delete_document sampleDocTable "doc1" true
        (fun _ => .error "S3 delete failed")).2.2
      = [("doc1/doc1.pdf", .error "S3 delete failed")]
    ∧ (delete_document sampleDocTable "nope" true
        (fun _ => .error "S3 delete failed")).1 = ⟨404, none⟩
    ∧ (delete_document sampleDocTable "nope" true
        (fun _ => .error "S3 delete failed")).2.1 = sampleDocTable := by
  have h := delete_document_policies sampleDocTable "doc1" sampleDocItem
    (fun _ => .error "S3 delete failed") rfl
  have h404 := h.2 sampleDocTable "nope" (fun _ => .error "S3 delete failed") rfl
  exact ⟨h.1.1, h.1.2.1, h.1.2.2 (by decide), h404.1, h404.2⟩

/-- Claim C9 (code bug): `rag_module/app/auth.py` does reject missing or
invalid bearer credentials with 401 when a service token is configured,
and so does the PDF service's basic-auth dependency — but the RAG routes
in `rag_module/app/main.py` never declare the auth dependency, so an
unauthenticated `POST /rag/index` with `SERVICE_TOKEN` configured is fully
processed (200 with results) instead of being rejected, contradicting the
claim's "uniformly for every such route" (and the repository's own
`test_unauthorized_access`). -/
theorem rag_index_route_bypasses_auth :
    rag_verify_token (some "test-service-token") none = .unauthorized
    ∧ rag_verify_token (some "test-service-token") (some "invalid-token") = .unauthorized
    ∧ pdf_verify_token none = .unauthorized
    ∧ (handleRagIndexRequest (some "test-service-token") none sampleIndexEnv ["doc1"]).1
        = .ok [⟨"doc1", .success, none⟩]
    ∧ (∀ st st' creds creds' env ids,
        handleRagIndexRequest st creds env ids = handleRagIndexRequest st' creds' env ids) := by
  refine ⟨rfl, ?_, rfl, rfl, fun _ _ _ _ _ _ => rfl⟩
  simp [rag_verify_token]

end Backend
